import Mathlib

/-!
Verification of the coachella_set_schedule core: the slip/projection engine
(`app/slip.py`, `app/models.py`) and the Art-Net packet decoder and brightness
mapper (`app/artnet.py`).

Times of day are embedded as seconds since midnight (`Nat`); Python
`datetime`/`timedelta` arithmetic on a fixed reference date becomes exact
integer arithmetic, and `datetime.time()` extraction becomes reduction
modulo 86400.  Python `Optional` values become `Option`; a Python truth test
on an optional `time` is a `None` test (times are always truthy), embedded
as `Option.isSome`.  Byte strings become `List Nat` with entries below 256.
-/

set_option linter.unusedVariables false

/-- Seconds in a day; the modulus of Python `datetime.time` extraction. -/
def secondsPerDay : Nat := 86400

/-- Embedding of `add_seconds_to_time` from `app/slip.py`: convert to a datetime on a fixed
reference date, add the offset, and take the time of day again (mod 86400). -/
def add_seconds_to_time (t : Nat) (seconds : Int) : Nat :=
  (((t : Int) + seconds).emod (secondsPerDay : Int)).toNat

/-- The `Act` model from `app/models.py`: scheduled times are required
times of day, actual times are optional. -/
structure Act where
  act_name : String
  scheduled_start : Nat
  scheduled_end : Nat
  actual_start : Option Nat
  actual_end : Option Nat
  deriving Repr, DecidableEq

/-- Embedding of `Act.scheduled_duration` (computed field): scheduled end minus scheduled
start, in signed seconds (datetime subtraction on the same reference date). -/
def Act.scheduled_duration (a : Act) : Int :=
  (a.scheduled_end : Int) - (a.scheduled_start : Int)

/-- Embedding of `Act.end_variance` (computed field): actual end minus scheduled end in
signed seconds, when the actual end is recorded. -/
def Act.end_variance (a : Act) : Option Int :=
  a.actual_end.map (fun e => (e : Int) - (a.scheduled_end : Int))

/-- Embedding of `Act.start_variance` (computed field): actual start minus scheduled start
in signed seconds, when the actual start is recorded. -/
def Act.start_variance (a : Act) : Option Int :=
  a.actual_start.map (fun s => (s : Int) - (a.scheduled_start : Int))

/-- Embedding of `Act.is_complete` from `app/models.py`. -/
def Act.is_complete (a : Act) : Bool :=
  a.actual_start.isSome && a.actual_end.isSome

/-- Embedding of `Act.is_in_progress` from `app/models.py`. -/
def Act.is_in_progress (a : Act) : Bool :=
  a.actual_start.isSome && a.actual_end.isNone

/-- Embedding of `Act.is_pending` from `app/models.py`. -/
def Act.is_pending (a : Act) : Bool :=
  a.actual_start.isNone

/-- The body of the `for act in acts` loop of `calculate_slip`
(`app/slip.py` lines 38-51): a completed act (actual end recorded) overwrites
slip with `max(0, end_variance)`; otherwise an act in progress overwrites slip
with `max(0, (actual_start + scheduled_duration) - scheduled_end)`; a pending
act leaves slip unchanged. -/
def slipStep (slip : Int) (act : Act) : Int :=
  if act.actual_end.isSome then
    max 0 (act.end_variance.getD 0)
  else if act.actual_start.isSome && act.actual_end.isNone then
    let actual_start : Int := (act.actual_start.getD 0 : Nat)
    let projected_end : Int := actual_start + act.scheduled_duration
    max 0 (projected_end - (act.scheduled_end : Int))
  else
    slip

/-- Embedding of `calculate_slip` from `app/slip.py`: fold `slipStep` over the acts starting
from 0.  The `current_time` parameter is accepted (defaulting to the wall
clock in Python) but never read after the default is filled in. -/
def calculate_slip (acts : List Act) (current_time : Option Nat) : Int :=
  acts.foldl slipStep 0

/-- Whether an act matches either branch of the `calculate_slip` loop:
it has completed (actual end set) or has started (actual start set). -/
def spec_slip_matches (act : Act) : Bool :=
  act.actual_end.isSome || act.actual_start.isSome

/-- Candidate slip of a matching act, following the spec text: a completed
act contributes `max(0, end_variance)`; an in-progress act contributes
`max(0, (actual_start + scheduled_duration) - scheduled_end)`. -/
def spec_slip_candidate (act : Act) : Int :=
  if act.actual_end.isSome then
    max 0 (act.end_variance.getD 0)
  else
    max 0 ((act.actual_start.getD 0 : Int) + act.scheduled_duration -
      (act.scheduled_end : Int))

/-- Spec-side description of `calculate_slip`: the candidate of the last
matching act in iteration order, or 0 when no act matches. -/
def spec_last_matching_slip (acts : List Act) : Int :=
  match acts.reverse.find? spec_slip_matches with
  | some a => spec_slip_candidate a
  | none => 0

/-- One projected record, the dict built by `project_times`. -/
structure Projection where
  act_name : String
  projected_start : Option Nat
  projected_end : Option Nat
  status : String
  deriving Repr, DecidableEq

/-- The body of the `for act in acts` loop of `project_times`
(`app/slip.py` lines 67-96). -/
def projectOne (slip : Int) (act : Act) : Projection :=
  if act.is_complete then
    { act_name := act.act_name
      projected_start := act.actual_start
      projected_end := act.actual_end
      status := "complete" }
  else if act.is_in_progress then
    { act_name := act.act_name
      projected_start := act.actual_start
      projected_end :=
        some (add_seconds_to_time (act.actual_start.getD 0) act.scheduled_duration)
      status := "in_progress" }
  else
    { act_name := act.act_name
      projected_start := some (add_seconds_to_time act.scheduled_start slip)
      projected_end := some (add_seconds_to_time act.scheduled_end slip)
      status := "pending" }

/-- Embedding of `project_times` from `app/slip.py`: one projected record per act, in
input order. -/
def project_times (acts : List Act) (slip : Int) : List Projection :=
  acts.map (projectOne slip)

/-- Spec-side per-act projection, following the spec text: a complete act
keeps its actual times verbatim; an in-progress act keeps its actual start
and projects its end from the scheduled duration; a pending act (no actual
start) has its scheduled times shifted by the slip. -/
def spec_project_act (slip : Int) (act : Act) : Projection :=
  match hs : act.actual_start, he : act.actual_end with
  | some s, some e =>
    { act_name := act.act_name
      projected_start := some s
      projected_end := some e
      status := "complete" }
  | some s, none =>
    { act_name := act.act_name
      projected_start := some s
      projected_end := some (add_seconds_to_time s act.scheduled_duration)
      status := "in_progress" }
  | none, _ =>
    { act_name := act.act_name
      projected_start := some (add_seconds_to_time act.scheduled_start slip)
      projected_end := some (add_seconds_to_time act.scheduled_end slip)
      status := "pending" }

/-- Embedding of `calculate_break_remaining` from `app/slip.py`: `none` when the current
act has no recorded actual end; otherwise the signed number of seconds from
`current_time` until the next act's slip-shifted scheduled start. -/
def calculate_break_remaining (current_act next_act : Act) (slip : Int)
    (current_time : Nat) : Option Int :=
  if current_act.actual_end.isNone then
    none
  else
    let next_projected_start := add_seconds_to_time next_act.scheduled_start slip
    some ((next_projected_start : Int) - (current_time : Int))

/-- Embedding of `ARTNET_HEADER = b"Art-Net\x00"` from `app/artnet.py`, as byte values. -/
def ARTNET_HEADER : List Nat := [0x41, 0x72, 0x74, 0x2D, 0x4E, 0x65, 0x74, 0x00]

/-- Embedding of `ARTNET_OPCODE_DMX = 0x5000` from `app/artnet.py`. -/
def ARTNET_OPCODE_DMX : Nat := 0x5000

/-- Embedding of `MAX_NITS = 11000` from `app/artnet.py`. -/
def MAX_NITS : Nat := 11000

/-- Embedding of `int.from_bytes(bs, byteorder="little")`: first byte least significant. -/
def from_bytes_le (bs : List Nat) : Nat :=
  bs.foldr (fun b acc => b + 256 * acc) 0

/-- Embedding of `int.from_bytes(bs, byteorder="big")`: first byte most significant. -/
def from_bytes_be (bs : List Nat) : Nat :=
  bs.foldl (fun acc b => 256 * acc + b) 0

/-- The configuration of an `ArtNetListener` that `parse_packet` reads:
the expected universe (named `universe_id` here because `universe` is a Lean
keyword) and the two 1-indexed DMX channel numbers.  Channel
numbers are embedded as `Nat`; the configuration contract (spec section 6
and 7) requires them in 1..512, under which `channel - 1` in `Nat` agrees
with Python. -/
structure ArtNetListener where
  universe_id : Nat
  channel_high : Nat
  channel_low : Nat
  deriving Repr, DecidableEq

/-- Embedding of `ArtNetListener.parse_packet` from `app/artnet.py`: validate the framing
of an Art-Net DMX packet and extract the 16-bit value spread over the two
configured channels; any validation failure returns `none`. -/
def ArtNetListener.parse_packet (self : ArtNetListener) (data : List Nat) :
    Option Nat :=
  if data.length < 18 then
    none
  else if data.take 8 ≠ ARTNET_HEADER then
    none
  else
    let opcode := from_bytes_le ((data.drop 8).take 2)
    if opcode ≠ ARTNET_OPCODE_DMX then
      none
    else
      let universe_val := from_bytes_le ((data.drop 14).take 2)
      if universe_val ≠ self.universe_id then
        none
      else
        let dmx_length := from_bytes_be ((data.drop 16).take 2)
        let max_channel := max self.channel_high self.channel_low
        if max_channel < 1 ∨ max_channel > dmx_length then
          none
        else
          let dmx_data := data.drop 18
          let high_index := self.channel_high - 1
          let low_index := self.channel_low - 1
          if high_index ≥ dmx_data.length ∨ low_index ≥ dmx_data.length then
            none
          else
            some (dmx_data.getD high_index 0 * 256 + dmx_data.getD low_index 0)

/-- Embedding of `calculate_nits` from `app/artnet.py`: scale a 16-bit value to 0..11000
nits and round to the nearest integer.  The Python float computation is
embedded as exact rational arithmetic; no value of 0..65535 lands exactly on
a half-integer (13107 never divides 4400 times an integer oddly), so the
rounding convention at ties does not matter and `round` agrees with Python. -/
def calculate_nits (value_16bit : Nat) : Int :=
  round (((value_16bit : ℚ) / 65535) * (MAX_NITS : ℚ))

/-- Embedding of `ArtNetListener.handle_value` from `app/artnet.py`, with the mutable
`_last_value` field made an explicit state: given the stored last nits value
and a fresh 16-bit value, return the new state and the emitted notification
(`none` when the callback is not invoked). -/
def ArtNetListener.handle_value (last_value : Option Int) (value_16bit : Nat) :
    Option Int × Option Int :=
  let nits := calculate_nits value_16bit
  if some nits ≠ last_value then
    (some nits, some nits)
  else
    (last_value, none)

/-- Feed a list of decoded 16-bit values through `handle_value`, threading the
state and collecting the emitted notifications in order. -/
def run_values (last_value : Option Int) : List Nat → Option Int × List Int
  | [] => (last_value, [])
  | v :: vs =>
    let r := ArtNetListener.handle_value last_value v
    let rest := run_values r.1 vs
    (rest.1, r.2.toList ++ rest.2)

/-- A concrete act scheduled 12:00-13:00 that started on time and ended ten
minutes late (end variance 600 seconds). -/
def actLate : Act :=
  { act_name := "Headliner"
    scheduled_start := 43200
    scheduled_end := 46800
    actual_start := some 43200
    actual_end := some 47400 }

/-- A concrete act scheduled 13:00-14:00 that started on time and ended ten
minutes early (end variance -600 seconds). -/
def actEarly : Act :=
  { act_name := "Closer"
    scheduled_start := 46800
    scheduled_end := 50400
    actual_start := some 46800
    actual_end := some 49800 }

/-- A concrete act with an actual end recorded but no actual start, the
state the caller-enforced implication is supposed to rule out. -/
def actGhost : Act :=
  { act_name := "Ghost"
    scheduled_start := 43200
    scheduled_end := 46800
    actual_start := none
    actual_end := some 47400 }

/-- A concrete pending act scheduled 14:00-15:00 with no actual times. -/
def actPending : Act :=
  { act_name := "Opener"
    scheduled_start := 50400
    scheduled_end := 54000
    actual_start := none
    actual_end := none }

/-- A concrete well-formed Art-Net DMX packet: header, opcode 0x5000
(little-endian), protocol version 14, sequence 0, physical port 0,
universe 0 (little-endian), declared DMX length 2 (big-endian), and the
two-byte payload 0x12 0x34. -/
def examplePacket : List Nat :=
  ARTNET_HEADER ++ [0x00, 0x50] ++ [0, 14] ++ [0] ++ [0] ++ [0, 0] ++ [0, 2] ++
    [0x12, 0x34]

theorem spec_slip_candidate_nonneg (a : Act) : 0 ≤ spec_slip_candidate a := by
  unfold spec_slip_candidate
  split <;> exact le_max_left 0 _

theorem slipStep_eq_candidate (s : Int) (a : Act) :
    slipStep s a = if spec_slip_matches a then spec_slip_candidate a else s := by
  unfold slipStep spec_slip_matches spec_slip_candidate
  cases he : a.actual_end <;> cases hs : a.actual_start <;> simp [he, hs]

theorem foldl_slipStep_eq (acts : List Act) (s : Int) :
    acts.foldl slipStep s =
      match acts.reverse.find? spec_slip_matches with
      | some a => spec_slip_candidate a
      | none => s := by
  induction acts generalizing s with
  | nil => rfl
  | cons a rest ih =>
    rw [List.foldl_cons, ih, List.reverse_cons, List.find?_append]
    cases h : rest.reverse.find? spec_slip_matches with
    | some b => simp [Option.or]
    | none =>
      rw [slipStep_eq_candidate]
      by_cases hm : spec_slip_matches a
      · simp [Option.or, List.find?_cons_of_pos, hm]
      · simp [Option.or, List.find?_cons_of_neg, hm]

theorem spec_last_matching_slip_nonneg (acts : List Act) :
    0 ≤ spec_last_matching_slip acts := by
  unfold spec_last_matching_slip
  cases acts.reverse.find? spec_slip_matches with
  | none => exact le_refl 0
  | some a => exact spec_slip_candidate_nonneg a

/-- Claim C1: for every list of acts, `calculate_slip` returns the candidate of
the last act in iteration order that is completed or in progress (a completed
act's candidate is `max(0, end_variance)`, an in-progress act's candidate is
`max(0, (actual_start + scheduled_duration) - scheduled_end)`), returns 0 when
the list is empty or no act has started or completed, and is never negative. -/
theorem calculate_slip_is_last_matching (acts : List Act) (ct : Option Nat) :
    calculate_slip acts ct = spec_last_matching_slip acts ∧
    0 ≤ calculate_slip acts ct ∧
    calculate_slip [] ct = 0 ∧
    ((∀ a ∈ acts, spec_slip_matches a = false) → calculate_slip acts ct = 0) := by
  have key : calculate_slip acts ct = spec_last_matching_slip acts := by
    unfold calculate_slip spec_last_matching_slip
    exact foldl_slipStep_eq acts 0
  refine ⟨key, ?_, rfl, ?_⟩
  · rw [key]
    exact spec_last_matching_slip_nonneg acts
  · intro hall
    rw [key]
    unfold spec_last_matching_slip
    have hnone : acts.reverse.find? spec_slip_matches = none := by
      rw [List.find?_eq_none]
      intro x hx
      simp [hall x (List.mem_reverse.mp hx)]
    rw [hnone]

/-- Claim C1 witness: the theorem applied to the concrete one-act list with a
late completed act. -/
theorem calculate_slip_is_last_matching_witness :
    calculate_slip [actLate] none = spec_last_matching_slip [actLate] ∧
    0 ≤ calculate_slip [actLate] none ∧
    calculate_slip [] none = 0 ∧
    ((∀ a ∈ [actLate], spec_slip_matches a = false) →
      calculate_slip [actLate] none = 0) :=
  calculate_slip_is_last_matching [actLate] none

/-- Claim C2 counterexample: an act that completed ten minutes early, placed
after an act that completed ten minutes late, does reduce the slip: the late
act alone gives slip 600, but appending the early act gives slip 0, because
the last matching act's candidate overwrites the earlier one. -/
theorem early_act_reduces_prior_slip :
    calculate_slip [actLate] none = 600 ∧
    calculate_slip [actLate, actEarly] none = 0 ∧ (0 : Int) ≠ 600 := by
  refine ⟨by decide, by decide, by decide⟩

/-- Claim C2 amended: a candidate slip is never negative, an act that finished
(or is projected to finish) early has candidate slip 0, and an act matching
either branch that is placed last overwrites the whole slip with its own
candidate - so a later early-finishing act replaces the slip established by an
earlier late act with 0 rather than leaving it unchanged. -/
theorem slip_early_semantics (acts : List Act) (ct : Option Nat) (a : Act) :
    0 ≤ spec_slip_candidate a ∧
    (∀ e : Nat, a.actual_end = some e → e ≤ a.scheduled_end →
      spec_slip_candidate a = 0) ∧
    (∀ s : Nat, a.actual_end = none → a.actual_start = some s →
      (s : Int) + a.scheduled_duration ≤ (a.scheduled_end : Int) →
      spec_slip_candidate a = 0) ∧
    (spec_slip_matches a = true →
      calculate_slip (acts ++ [a]) ct = spec_slip_candidate a) := by
  refine ⟨spec_slip_candidate_nonneg a, ?_, ?_, ?_⟩
  · intro e h1 h2
    unfold spec_slip_candidate Act.end_variance
    rw [h1]
    simp only [Option.isSome_some, if_true, Option.map_some', Option.getD_some]
    have hle : (e : Int) - (a.scheduled_end : Int) ≤ 0 := by omega
    exact max_eq_left hle
  · intro s h1 h2 h3
    unfold spec_slip_candidate
    rw [h1, h2]
    simp only [Option.isSome_none, Bool.false_eq_true, if_false, Option.getD_some]
    have hle : (s : Int) + a.scheduled_duration - (a.scheduled_end : Int) ≤ 0 := by
      omega
    exact max_eq_left hle
  · intro hm
    unfold calculate_slip
    rw [foldl_slipStep_eq, List.reverse_append]
    simp only [List.reverse_singleton, List.singleton_append]
    rw [List.find?_cons_of_pos _ hm]

/-- Claim C2 witness: the amended theorem applied to the concrete late act
followed by the concrete early act. -/
theorem slip_early_semantics_witness :
    spec_slip_candidate actEarly = 0 ∧
    calculate_slip [actLate, actEarly] none = spec_slip_candidate actEarly :=
  ⟨(slip_early_semantics [actLate] none actEarly).2.1 49800 rfl (by decide),
   (slip_early_semantics [actLate] none actEarly).2.2.2 (by decide)⟩

theorem projectOne_eq_spec (slip : Int) (a : Act) :
    projectOne slip a = spec_project_act slip a := by
  unfold projectOne spec_project_act Act.is_complete Act.is_in_progress
  cases hs : a.actual_start <;> cases he : a.actual_end <;> simp [hs, he]

/-- Claim C3: `project_times` returns one record per input act in the same
order; a complete act keeps its actual times verbatim with status "complete",
an in-progress act keeps its actual start and projects its end as
actual_start plus scheduled_duration with status "in_progress", and a pending
act gets its scheduled times shifted by the slip with status "pending". -/
theorem project_times_spec (acts : List Act) (slip : Int) :
    project_times acts slip = acts.map (spec_project_act slip) ∧
    (project_times acts slip).length = acts.length := by
  have hfun : projectOne slip = spec_project_act slip :=
    funext (projectOne_eq_spec slip)
  constructor
  · rw [project_times, hfun]
  · rw [project_times, List.length_map]

/-- Claim C8: `calculate_break_remaining` is absent exactly when the current
act has no recorded actual end; otherwise it is the signed number of seconds
from `current_time` to the next act's slip-shifted scheduled start, which may
be negative. -/
theorem calculate_break_remaining_spec (c n : Act) (slip : Int) (now : Nat) :
    (calculate_break_remaining c n slip now = none ↔ c.actual_end = none) ∧
    (c.actual_end.isSome = true →
      calculate_break_remaining c n slip now =
        some ((add_seconds_to_time n.scheduled_start slip : Int) - (now : Int))) := by
  unfold calculate_break_remaining
  cases he : c.actual_end <;> simp [he]

/-- Claim C8 witness: the theorem applied to the concrete completed act,
the concrete pending act, slip 600 and a concrete current time; the next
projected start is 50400 + 600 = 51000 and the break remaining is 51000 -
47000 = 4000 seconds. -/
theorem calculate_break_remaining_witness :
    calculate_break_remaining actLate actPending 600 47000 = some 4000 := by
  have h := (calculate_break_remaining_spec actLate actPending 600 47000).2 (by decide)
  rw [h]
  decide

/-- Claim C9: an act with an actual end but no actual start (violating the
caller-enforced implication) is treated as completed by `calculate_slip`,
which takes `max(0, end_variance)` as its candidate, while `project_times`
classifies the same act as "pending" and shifts its scheduled times by the
slip - the two operations classify such an act inconsistently. -/
theorem slip_and_projection_disagree_on_ghost (a : Act) (e : Nat)
    (ct : Option Nat) (slip : Int)
    (h1 : a.actual_start = none) (h2 : a.actual_end = some e) :
    calculate_slip [a] ct = max 0 ((e : Int) - (a.scheduled_end : Int)) ∧
    project_times [a] slip =
      [{ act_name := a.act_name
         projected_start := some (add_seconds_to_time a.scheduled_start slip)
         projected_end := some (add_seconds_to_time a.scheduled_end slip)
         status := "pending" }] := by
  constructor
  · simp [calculate_slip, slipStep, h1, h2, Act.end_variance]
  · simp [project_times, projectOne, Act.is_complete, Act.is_in_progress, h1, h2]

/-- Claim C9 witness: the theorem applied to the concrete act with an actual
end recorded but no actual start. -/
theorem slip_and_projection_disagree_on_ghost_witness :
    calculate_slip [actGhost] none =
      max 0 ((47400 : Int) - (actGhost.scheduled_end : Int)) ∧
    project_times [actGhost] 0 =
      [{ act_name := actGhost.act_name
         projected_start := some (add_seconds_to_time actGhost.scheduled_start 0)
         projected_end := some (add_seconds_to_time actGhost.scheduled_end 0)
         status := "pending" }] :=
  slip_and_projection_disagree_on_ghost actGhost 47400 none 0 rfl rfl

/-- Claim C10: the `current_time` parameter of `calculate_slip` has no
influence on the result: after the Python default fill-in it is never read,
so any two current times give equal slip. -/
theorem calculate_slip_ignores_current_time (acts : List Act)
    (t1 t2 : Option Nat) :
    calculate_slip acts t1 = calculate_slip acts t2 := rfl

/-- Claim C4: under the configuration contract that both channel numbers are
at least 1, `parse_packet` returns no value exactly when some validation step
fails: length below 18, first 8 bytes not the Art-Net header, little-endian
opcode at bytes 8-9 not 0x5000, little-endian universe at bytes 14-15 not the
expected universe, the larger channel number outside [1, L] for the big-endian
declared length L at bytes 16-17, or either zero-based channel index not a
valid index into the payload slice after byte 18.  The embedding is a total
function, so no input can raise. -/
theorem parse_packet_none_iff (self : ArtNetListener) (data : List Nat)
    (h1 : 1 ≤ self.channel_high) (h2 : 1 ≤ self.channel_low) :
    self.parse_packet data = none ↔
      data.length < 18 ∨
      data.take 8 ≠ ARTNET_HEADER ∨
      from_bytes_le ((data.drop 8).take 2) ≠ ARTNET_OPCODE_DMX ∨
      from_bytes_le ((data.drop 14).take 2) ≠ self.universe_id ∨
      ¬(1 ≤ max self.channel_high self.channel_low ∧
        max self.channel_high self.channel_low ≤
          from_bytes_be ((data.drop 16).take 2)) ∨
      (data.drop 18).length ≤ self.channel_high - 1 ∨
      (data.drop 18).length ≤ self.channel_low - 1 := by
  unfold ArtNetListener.parse_packet
  dsimp only
  split_ifs with hA hB hC hD hE hF
  · exact iff_of_true rfl (Or.inl hA)
  · exact iff_of_true rfl (Or.inr (Or.inl hB))
  · exact iff_of_true rfl (Or.inr (Or.inr (Or.inl hC)))
  · exact iff_of_true rfl (Or.inr (Or.inr (Or.inr (Or.inl hD))))
  · refine iff_of_true rfl (Or.inr (Or.inr (Or.inr (Or.inr (Or.inl ?_)))))
    omega
  · refine iff_of_true rfl (Or.inr (Or.inr (Or.inr (Or.inr (Or.inr ?_)))))
    omega
  · refine iff_of_false (by simp) ?_
    push_neg at hA hB hC hD hE hF ⊢
    exact ⟨by omega, hB, hC, hD, ⟨by omega, by omega⟩, by omega, by omega⟩

/-- Claim C4 witness: the default configuration rejects the empty datagram,
via the length validation step. -/
theorem parse_packet_none_iff_witness :
    ArtNetListener.parse_packet ⟨0, 1, 2⟩ [] = none :=
  (parse_packet_none_iff ⟨0, 1, 2⟩ [] (by decide) (by decide)).mpr
    (Or.inl (by decide))

theorem getD_lt_256 (l : List Nat) (i : Nat) (h : ∀ b ∈ l, b < 256) :
    l.getD i 0 < 256 := by
  induction l generalizing i with
  | nil => simp [List.getD]
  | cons x xs ih =>
    cases i with
    | zero => simpa using h x (List.mem_cons_self x xs)
    | succ j =>
      rw [List.getD_cons_succ]
      exact ih j (fun b hb => h b (List.mem_cons_of_mem x hb))

/-- Claim C5: whenever `parse_packet` returns a value, it is
`payload[channelHigh-1] * 256 + payload[channelLow-1]` over the payload slice
after byte 18, a value in 0..65535 (bytes are below 256); and the concrete
valid packet with universe 0, channelHigh 1, channelLow 2 and DMX payload
0x12 0x34 decodes to 4660. -/
theorem parse_packet_success_value (self : ArtNetListener) (data : List Nat)
    (v : Nat) (hbytes : ∀ b ∈ data, b < 256)
    (hv : self.parse_packet data = some v) :
    v = (data.drop 18).getD (self.channel_high - 1) 0 * 256 +
      (data.drop 18).getD (self.channel_low - 1) 0 ∧
    v ≤ 65535 ∧
    ArtNetListener.parse_packet ⟨0, 1, 2⟩ examplePacket = some 4660 := by
  have hdrop : ∀ b ∈ data.drop 18, b < 256 :=
    fun b hb => hbytes b (List.drop_subset 18 data hb)
  have hh := getD_lt_256 (data.drop 18) (self.channel_high - 1) hdrop
  have hl := getD_lt_256 (data.drop 18) (self.channel_low - 1) hdrop
  unfold ArtNetListener.parse_packet at hv
  dsimp only at hv
  split_ifs at hv
  have hveq := Option.some.inj hv
  refine ⟨hveq.symm, ?_, by decide⟩
  omega

/-- Claim C5 witness: the theorem applied to the concrete valid packet. -/
theorem parse_packet_success_value_witness :
    4660 = (examplePacket.drop 18).getD 0 0 * 256 +
      (examplePacket.drop 18).getD 1 0 ∧
    4660 ≤ 65535 ∧
    ArtNetListener.parse_packet ⟨0, 1, 2⟩ examplePacket = some 4660 :=
  parse_packet_success_value ⟨0, 1, 2⟩ examplePacket 4660 (by decide) (by decide)

/-- Claim C6: `calculate_nits` is `round(value16 / 65535 * 11000)` (the Python
float expression embedded as exact rational arithmetic, whose value never
falls on a half-integer for inputs in range, so the tie convention is
irrelevant); it maps 0..65535 into 0..11000, with 0 to 0, 65535 to 11000 and
32768 to 5500. -/
theorem calculate_nits_spec (v : Nat) (h : v ≤ 65535) :
    calculate_nits v = round (((v : ℚ) / 65535) * 11000) ∧
    0 ≤ calculate_nits v ∧
    calculate_nits v ≤ 11000 ∧
    calculate_nits 0 = 0 ∧
    calculate_nits 65535 = 11000 ∧
    calculate_nits 32768 = 5500 := by
  have hv : (v : ℚ) ≤ 65535 := by exact_mod_cast h
  have hx0 : (0 : ℚ) ≤ ((v : ℚ) / 65535) * (MAX_NITS : ℚ) := by
    rw [MAX_NITS]
    positivity
  have hx1 : ((v : ℚ) / 65535) * (MAX_NITS : ℚ) ≤ 11000 := by
    rw [MAX_NITS]
    rw [div_mul_eq_mul_div, div_le_iff₀ (by norm_num : (0 : ℚ) < 65535)]
    push_cast
    nlinarith
  refine ⟨by norm_num [calculate_nits, MAX_NITS], ?_, ?_, ?_, ?_, ?_⟩
  · rw [calculate_nits, round_eq]
    refine Int.floor_nonneg.mpr ?_
    linarith
  · rw [calculate_nits, round_eq]
    have hfl : ((v : ℚ) / 65535) * (MAX_NITS : ℚ) + 1 / 2 ≤ 11000 + 1 / 2 := by
      linarith
    calc ⌊((v : ℚ) / 65535) * (MAX_NITS : ℚ) + 1 / 2⌋
        ≤ ⌊(11000 : ℚ) + 1 / 2⌋ := Int.floor_le_floor hfl
      _ = 11000 := by norm_num
  · rw [calculate_nits, MAX_NITS, round_eq]
    norm_num
  · rw [calculate_nits, MAX_NITS, round_eq]
    norm_num
  · rw [calculate_nits, MAX_NITS, round_eq]
    norm_num

/-- Claim C6 witness: the theorem applied at the midpoint input 32768. -/
theorem calculate_nits_spec_witness :
    calculate_nits 32768 = round ((((32768 : Nat) : ℚ) / 65535) * 11000) ∧
    0 ≤ calculate_nits 32768 ∧
    calculate_nits 32768 ≤ 11000 ∧
    calculate_nits 0 = 0 ∧
    calculate_nits 65535 = 11000 ∧
    calculate_nits 32768 = 5500 :=
  calculate_nits_spec 32768 (by decide)

theorem destutter_cons_run (vs : List Nat) (n : Int) :
    List.destutter' (fun a b : Int => a ≠ b) n (vs.map calculate_nits) =
      n :: (run_values (some n) vs).2 := by
  induction vs generalizing n with
  | nil => rfl
  | cons v vs ih =>
    rw [List.map_cons, List.destutter']
    by_cases hne : n = calculate_nits v
    · rw [if_neg (by simpa using hne)]
      rw [ih n]
      simp [run_values, ArtNetListener.handle_value, hne]
    · rw [if_pos (by simpa using hne)]
      rw [ih (calculate_nits v)]
      simp [run_values, ArtNetListener.handle_value, Ne.symm hne]

/-- Claim C7: `handle_value` emits a notification carrying the computed nits
exactly when the stored last value differs from it (in particular always on
the first call, from the absent initial state), updating the stored value on
exactly those calls and leaving it unchanged otherwise; hence the stream of
notifications over any input sequence from the initial absent state is the
nits image of the inputs with consecutive duplicates collapsed. -/
theorem handle_value_emission_spec (st : Option Int) (v : Nat)
    (vs : List Nat) :
    (st ≠ some (calculate_nits v) →
      ArtNetListener.handle_value st v =
        (some (calculate_nits v), some (calculate_nits v))) ∧
    (st = some (calculate_nits v) →
      ArtNetListener.handle_value st v = (st, none)) ∧
    ArtNetListener.handle_value none v =
      (some (calculate_nits v), some (calculate_nits v)) ∧
    (run_values none vs).2 =
      (vs.map calculate_nits).destutter (fun a b : Int => a ≠ b) := by
  refine ⟨?_, ?_, ?_, ?_⟩
  · intro hne
    simp [ArtNetListener.handle_value, Ne.symm hne]
  · intro heq
    simp [ArtNetListener.handle_value, heq]
  · simp [ArtNetListener.handle_value]
  · cases vs with
    | nil => rfl
    | cons v vs =>
      rw [List.map_cons, List.destutter, destutter_cons_run]
      simp [run_values, ArtNetListener.handle_value]

/-- Claim C7 witness: the theorem applied to the initial absent state and a
concrete input sequence with a repeated value. -/
theorem handle_value_emission_witness :
    ArtNetListener.handle_value none 0 =
      (some (calculate_nits 0), some (calculate_nits 0)) ∧
    (run_values none [0, 65535, 65535]).2 =
      ([0, 65535, 65535].map calculate_nits).destutter (fun a b : Int => a ≠ b) :=
  ⟨(handle_value_emission_spec none 0 [0, 65535, 65535]).2.2.1,
   (handle_value_emission_spec none 0 [0, 65535, 65535]).2.2.2⟩
